import Mathlib

/-!
# Verification of the Universal Controller Script control-surface engine

A shallow embedding of the control-surface matching and state-tracking
engine:

* `ControlSurface` with its dirty-flag machinery, from
  `src/control_surfaces/controls/control_surface.py`
  (`__init__`, `match`, the `color`/`annotation`/`value` setters, `doTick`);
* `NoteMatcher` from `src/devices/control_generators/notes.py`;
* the context-reset protocol from `common/contextmanager.py`
  (`resetContext`, `getContext`, `catchContextResetException`).

Python mutation of `self` is modelled by explicit state passing: each
method takes the pre-state and returns the post-state alongside its
return value.  The ambient wall clock (`time()`) and the settings lookup
`getContext().settings.get("controls.double_press_time")` read inside
`ControlSurface.match` are passed as the extra parameters `now` and
`dpt`.  Float values and timestamps are modelled as rationals.  A raised
Python exception is modelled by an error value returned before any state
write, leaving the pre-state in force.
-/

/-- Raw event record.  Modelled from the spec: a fixed 3-field record
`\x7bstatus, data1, data2\x7d` (the `EventData` class itself is not part of the
extracted sources).  Each field is a byte carried as a `Nat`. -/
structure EventData where
  status : Nat
  data1 : Nat
  data2 : Nat
deriving DecidableEq

/-- Modelled from the spec: the extracted sources call `isEventStandard`
to distinguish 3-byte standard events from sysex events; the embedding
carries only standard events, so the test always succeeds. -/
def isEventStandard (_ : EventData) : Bool :=
  true

/-- One per-field matcher of an event pattern.  Modelled from the spec:
each field matcher is either an exact value, a wildcard, or a nibble
set matching the high nibble against an explicit set with the low
nibble wildcarded (the `event_patterns` module is not part of the
extracted sources). -/
inductive FieldPattern where
  | exact (n : Nat)
  | wildcard
  | highNibbles (allowed : List Nat)
deriving DecidableEq

/-- Verdict of one field matcher on one byte. -/
def FieldPattern.matchByte : FieldPattern → Nat → Bool
  | .exact n, b => b == n
  | .wildcard, _ => true
  | .highNibbles allowed, b => allowed.contains (b / 16)

/-- An event pattern: a pure predicate over a raw event. -/
structure IEventPattern where
  matchEvent : EventData → Bool

/-- Modelled from the spec: `BasicPattern` combines three per-field
matchers, one per byte of the event. -/
def BasicPattern (p1 p2 p3 : FieldPattern) : IEventPattern :=
  ⟨fun e => p1.matchByte e.status && p2.matchByte e.data1 && p3.matchByte e.data2⟩

/-- Modelled from the spec: `fromNibbles((8, 9), ...)` builds a field
matcher accepting any byte whose high nibble lies in the given set,
with the low nibble wildcarded. -/
def fromNibbles (allowed : List Nat) : FieldPattern :=
  .highNibbles allowed

/-- Color of a control.  Modelled from the spec: the `Color` class is not
part of the extracted sources; the claims only compare colors for
equality, so an RGB triple with decidable equality suffices.
`Color.default` is the value of the Python `Color()` constructor. -/
structure Color where
  red : Nat
  green : Nat
  blue : Nat
deriving DecidableEq

/-- The Python default-constructed `Color()`. -/
def Color.default : Color :=
  ⟨0, 0, 0⟩

/-- A value strategy: pure extraction of a normalized value (given the
previous value, for relative strategies) and a channel from a raw
event.  Embeds the `IValueStrategy` interface used by
`ControlSurface.match`. -/
structure IValueStrategy where
  getValueFromEvent : EventData → ℚ → ℚ
  getChannelFromEvent : EventData → Int

/-- The record produced by a successful match,
from `ControlEvent(self, self.value, channel, double_press)`.
The `mapping` component (an identity-only handle to the surface the
caller already holds) carries no state and is omitted. -/
structure ControlEvent where
  value : ℚ
  channel : Int
  double_press : Bool
deriving DecidableEq

/-- A change-notification callback fired by `ControlSurface.doTick`,
recording which of `onColorChange` / `onAnnotationChange` /
`onValueChange` was invoked and with what argument. -/
inductive ChangeCallback where
  | onColorChange (new : Color)
  | onAnnotationChange (new : String)
  | onValueChange (new : ℚ)
deriving DecidableEq

/-- State of a `ControlSurface`
(`src/control_surfaces/controls/control_surface.py`).  The fields named
`_pattern`, `_color`, ... in Python lose their underscore prefix here.
`isPress` is the static method concrete subclasses override; the
annotation/color/value managers of `__init__` are omitted (they are
dummy objects with no behavior on the code paths the claims touch). -/
structure ControlSurface where
  pattern : IEventPattern
  value_strategy : IValueStrategy
  isPress : ℚ → Bool
  coord : Int × Int
  color : Color
  annot : String
  value : ℚ
  needs_update : Bool
  got_update : Bool
  color_changed : Bool
  annot_changed : Bool
  value_changed : Bool
  press : ℚ
  tweak : ℚ

/-- `ControlSurface.__init__`: fresh construction with the given pattern,
value strategy, `isPress` predicate and coordinate. -/
def ControlSurface.init (event_pattern : IEventPattern)
    (value_strategy : IValueStrategy) (isPress : ℚ → Bool)
    (coordinate : Int × Int) : ControlSurface where
  pattern := event_pattern
  value_strategy := value_strategy
  isPress := isPress
  coord := coordinate
  color := Color.default
  annot := ""
  value := 0
  needs_update := false
  got_update := false
  color_changed := true
  annot_changed := true
  value_changed := true
  press := 0
  tweak := 0

/-- `ControlSurface.match` (named `matchEvent` here because `match` is a
reserved word).  `now` is the value `time()` returns during the call and
`dpt` the settings value `controls.double_press_time`.  Returns the
optional `ControlEvent` together with the post-state of the surface. -/
def ControlSurface.matchEvent (s : ControlSurface) (now dpt : ℚ)
    (event : EventData) : Option ControlEvent × ControlSurface :=
  if s.pattern.matchEvent event then
    let newValue := s.value_strategy.getValueFromEvent event s.value
    let channel := s.value_strategy.getChannelFromEvent event
    let s1 : ControlSurface :=
      { s with value := newValue, needs_update := true, got_update := false,
               tweak := now }
    if s1.isPress s1.value then
      let double_press : Bool := decide (now - s1.press ≤ dpt)
      let s2 : ControlSurface := { s1 with press := now }
      (some ⟨s2.value, channel, double_press⟩, s2)
    else
      (some ⟨s1.value, channel, false⟩, s1)
  else
    (none, s)

/-- The `color` property setter.  Sets `got_update` unconditionally, then
updates the color and its dirty flag only when the new color differs. -/
def ControlSurface.setColor (s : ControlSurface) (c : Color) : ControlSurface :=
  let s1 : ControlSurface := { s with got_update := true }
  if s1.color ≠ c then
    { s1 with color := c, color_changed := true }
  else
    s1

/-- The `annotation` property setter: updates the annotation and its
dirty flag only when the new annotation differs. -/
def ControlSurface.setAnnot (s : ControlSurface) (a : String) :
    ControlSurface :=
  if s.annot ≠ a then
    { s with annot := a, annot_changed := true }
  else
    s

/-- The `value` property setter.  A result of `(s, some msg)` models the
`ValueError` raised when the new value is out of range: the check
precedes every write, so the surface state is still `s`.  In range, the
value and its flags are updated only when the new value differs. -/
def ControlSurface.setValue (s : ControlSurface) (val : ℚ) :
    ControlSurface × Option String :=
  if ¬(0 ≤ val ∧ val ≤ 1) then
    (s, some "Value for control must be between 0 and 1")
  else if s.value ≠ val then
    ({ s with value := val, needs_update := true, got_update := false,
              value_changed := true }, none)
  else
    (s, none)

/-- `ControlSurface.doTick`: fires each change callback when `thorough`
is true or the corresponding dirty flag is set (in source order: color,
annotation, value), runs the overridable `tick` (a no-op in the base
class), then clears `needs_update` and `got_update` when `got_update`
is set.  Returns the list of callbacks fired with the post-state. -/
def ControlSurface.doTick (s : ControlSurface) (thorough : Bool) :
    List ChangeCallback × ControlSurface :=
  let calls : List ChangeCallback :=
    (if thorough || s.color_changed then [.onColorChange s.color] else [])
    ++ (if thorough || s.annot_changed
        then [.onAnnotationChange s.annot] else [])
    ++ (if thorough || s.value_changed then [.onValueChange s.value] else [])
  let s1 : ControlSurface :=
    if s.got_update then
      { s with needs_update := false, got_update := false }
    else
      s
  (calls, s1)

/-- Settings store.  Modelled from the spec: `common/settings.py` is not
part of the extracted sources; the spec exposes it as a key-lookup
capability used at minimum for `controls.double_press_time`, a float
duration in seconds. -/
structure Settings where
  double_press_time : ℚ
deriving DecidableEq

/-- Modelled from the spec: the key lookup `Settings.get`. -/
def Settings.get (s : Settings) (key : String) : Option ℚ :=
  if key = "controls.double_press_time" then some s.double_press_time else none

/-- Modelled from the spec: the default `Settings()` store built by a
fresh context; the concrete default for `controls.double_press_time` is
not given by the extracted sources, and no claim depends on it, so the
the example threshold 0.3 from the spec is used. -/
def Settings.initial : Settings :=
  ⟨3 / 10⟩

/-- `DeviceContextManager` (`common/contextmanager.py`): the owner of the
runtime state.  Its `__init__` builds a fresh `Settings()`. -/
structure DeviceContextManager where
  settings : Settings
deriving DecidableEq

/-- `DeviceContextManager.__init__`: a freshly constructed context. -/
def DeviceContextManager.init : DeviceContextManager :=
  ⟨Settings.initial⟩

/-- The module-level global `_context`, `None` before `_initContext`. -/
def GlobalContext : Type :=
  Option DeviceContextManager

/-- Outcome of a Python call in the context-manager module: a normal
return, a raised `ContextResetException` carrying its reason, or any
other raised exception. -/
inductive PyResult (α : Type) where
  | ok (a : α)
  | contextReset (reason : String)
  | error (msg : String)
deriving DecidableEq

/-- `getContext`: returns the context, or raises when it is `None`. -/
def getContext (g : GlobalContext) : PyResult DeviceContextManager :=
  match g with
  | none => .error "Context is not initialised"
  | some c => .ok c

/-- `_initContext`: installs a freshly constructed context. -/
def initContext (_ : GlobalContext) : GlobalContext :=
  some DeviceContextManager.init

/-- `resetContext`: replaces the global context with a freshly
constructed `DeviceContextManager`, then raises
`ContextResetException(reason)` (the log call is omitted).  The result
pairs the new global state with the raised signal; the function never
returns normally (`NoReturn`), so the payload type is `Empty`. -/
def resetContext (reason : String) (_ : GlobalContext) :
    GlobalContext × PyResult Empty :=
  (some DeviceContextManager.init, .contextReset reason)

/-- `catchContextResetException`: the `wrapper` built by the decorator.  It runs the
wrapped function, absorbs a `ContextResetException` (by `pass`), lets
any other exception propagate, and returns `None` (here `Unit`) in the
non-raising cases, discarding the return value of the wrapped function. -/
def catchContextResetException {α : Type}
    (func : GlobalContext → GlobalContext × PyResult α) (g : GlobalContext) :
    GlobalContext × PyResult Unit :=
  match func g with
  | (g1, .ok _) => (g1, .ok ())
  | (g1, .contextReset _) => (g1, .ok ())
  | (g1, .error msg) => (g1, .error msg)

/-- State of a `NoteMatcher`
(`src/devices/control_generators/notes.py`): a pool `_notes` of note
surfaces and the coarse note pattern `_note_pattern`. -/
structure NoteMatcher where
  notes : List ControlSurface
  note_pattern : IEventPattern

/-- `NoteMatcher.__init__`: a pool of 128 note surfaces,
`[Note(i) for i in range(128)]`, and the coarse pattern
`BasicPattern(fromNibbles((8, 9), ...), ..., ...)`.  The `Note`
subclass is not part of the extracted sources, so the constructor is a
parameter `mkNote`. -/
def NoteMatcher.init (mkNote : Nat → ControlSurface) : NoteMatcher where
  notes := (List.range 128).map mkNote
  note_pattern := BasicPattern (fromNibbles [8, 9]) .wildcard .wildcard

/-- `NoteMatcher.matchEvent`: when the event is standard and the coarse
note pattern matches, delegates to `self._notes[event.data1].match`;
otherwise returns `None` at once.  The returned triple carries the
delegated result, the post-state, and the trace of pool indices whose
`match` was invoked during the call; an out-of-range `data1` is the
Python `IndexError`. -/
def NoteMatcher.matchEvent (m : NoteMatcher) (now dpt : ℚ) (e : EventData) :
    PyResult (Option ControlEvent × NoteMatcher × List Nat) :=
  if isEventStandard e && m.note_pattern.matchEvent e then
    match m.notes.get? e.data1 with
    | some s =>
      let r := s.matchEvent now dpt e
      .ok (r.1, { m with notes := m.notes.set e.data1 r.2 }, [e.data1])
    | none => .error "IndexError"
  else
    .ok (none, m, [])

/-! ## Concrete fixtures used by witnesses and counterexamples -/

/-- A pattern matching every event. -/
def alwaysPattern : IEventPattern :=
  ⟨fun _ => true⟩

/-- A pattern matching no event (the behavior of `NullPattern`). -/
def neverPattern : IEventPattern :=
  ⟨fun _ => false⟩

/-- A data2-style value strategy: value `data2 / 127`, channel from the
low nibble of the status byte. -/
def data2Strategy : IValueStrategy :=
  ⟨fun e _ => (e.data2 : ℚ) / 127, fun e => (e.status : Int) % 16⟩

/-- An `isPress` predicate that always reports a press. -/
def pressAlways : ℚ → Bool :=
  fun _ => true

/-- A fresh surface that matches every event and always reports a press. -/
def surfFix : ControlSurface :=
  ControlSurface.init alwaysPattern data2Strategy pressAlways (0, 0)

/-- A fresh surface whose pattern matches no event. -/
def surfMiss : ControlSurface :=
  ControlSurface.init neverPattern data2Strategy pressAlways (0, 0)

/-- A note-on event: status `0x90`, note 60, velocity 100. -/
def noteOn60 : EventData :=
  ⟨144, 60, 100⟩

/-! ## Claims -/

/-- **C1.**  The claim says `doTick` clears a dirty flag once the
corresponding change callback has been delivered.  The code does not:
after a color assignment dirties the flag, a non-thorough `doTick`
delivers `onColorChange` yet leaves `color_changed` (and the two other
dirty flags) set, so the immediately following non-thorough `doTick`
delivers all the callbacks again. -/
theorem doTick_leaves_dirty_flags_set :
    ChangeCallback.onColorChange ⟨1, 2, 3⟩ ∈
      ((surfFix.setColor ⟨1, 2, 3⟩).doTick false).1 ∧
    ((surfFix.setColor ⟨1, 2, 3⟩).doTick false).2.color_changed = true ∧
    ((surfFix.setColor ⟨1, 2, 3⟩).doTick false).2.annot_changed = true ∧
    ((surfFix.setColor ⟨1, 2, 3⟩).doTick false).2.value_changed = true ∧
    ((((surfFix.setColor ⟨1, 2, 3⟩).doTick false).2).doTick false).1 =
      [.onColorChange ⟨1, 2, 3⟩, .onAnnotationChange "", .onValueChange 0] := by
  decide

/-- **C2, counterexample.**  The claim says a successful
`ControlSurface.match` marks the `valueChanged` dirty flag.  On a
surface whose `valueChanged` flag is clear, a matching event leaves the
flag clear: `match` sets `needs_update`, resets `got_update` and stamps
the tweak time, but never touches `_value_changed`. -/
theorem match_does_not_mark_valueChanged :
    (({ surfFix with value_changed := false }).matchEvent 1 (3 / 10)
        noteOn60).1.isSome = true ∧
    (({ surfFix with value_changed := false }).matchEvent 1 (3 / 10)
        noteOn60).2.value_changed = false := by
  decide

/-- **C2, amended.**  For every raw event the pattern matches,
`ControlSurface.match` recomputes `value` via the value strategy passing
the previous value, marks `needsUpdate` (and resets `gotUpdate`), and
stamps `lastTweakTime` with the current time, before returning the
`ControlEvent`; it leaves the `valueChanged` dirty flag exactly as it
was. -/
theorem match_hit_updates_state (s : ControlSurface) (now dpt : ℚ)
    (e : EventData) (h : s.pattern.matchEvent e = true) :
    (s.matchEvent now dpt e).1.isSome = true ∧
    (s.matchEvent now dpt e).2.value =
      s.value_strategy.getValueFromEvent e s.value ∧
    (s.matchEvent now dpt e).2.needs_update = true ∧
    (s.matchEvent now dpt e).2.got_update = false ∧
    (s.matchEvent now dpt e).2.tweak = now ∧
    (s.matchEvent now dpt e).2.value_changed = s.value_changed := by
  unfold ControlSurface.matchEvent
  simp only [h, if_true]
  split <;> simp

/-- Witness for `match_hit_updates_state` at a concrete surface and
event. -/
theorem match_hit_updates_state_witness :
    (surfFix.matchEvent 1 (3 / 10) noteOn60).1.isSome = true ∧
    (surfFix.matchEvent 1 (3 / 10) noteOn60).2.value =
      surfFix.value_strategy.getValueFromEvent noteOn60 surfFix.value ∧
    (surfFix.matchEvent 1 (3 / 10) noteOn60).2.needs_update = true ∧
    (surfFix.matchEvent 1 (3 / 10) noteOn60).2.got_update = false ∧
    (surfFix.matchEvent 1 (3 / 10) noteOn60).2.tweak = 1 ∧
    (surfFix.matchEvent 1 (3 / 10) noteOn60).2.value_changed =
      surfFix.value_changed :=
  match_hit_updates_state surfFix 1 (3 / 10) noteOn60 (by decide)

/-- **C7.**  Assigning the `value` property outside `[0, 1]` fails with
the validation error and leaves the surface state exactly as it was;
assigning a value inside `[0, 1]` succeeds (no error). -/
theorem value_setter_validation (s : ControlSurface) (v : ℚ) :
    ((v < 0 ∨ 1 < v) →
      s.setValue v = (s, some "Value for control must be between 0 and 1")) ∧
    (0 ≤ v → v ≤ 1 → (s.setValue v).2 = none) := by
  constructor
  · intro h
    have hn : ¬(0 ≤ v ∧ v ≤ 1) := by
      rcases h with h | h
      · exact fun hc => absurd hc.1 (not_le.mpr h)
      · exact fun hc => absurd hc.2 (not_le.mpr h)
    unfold ControlSurface.setValue
    simp only [hn, not_false_iff, if_true]
  · intro h0 h1
    unfold ControlSurface.setValue
    rw [if_neg (not_not_intro ⟨h0, h1⟩)]
    split <;> rfl

/-- Witness for `value_setter_validation`: assigning `3/2` fails and
leaves the state unchanged, assigning `1/2` succeeds. -/
theorem value_setter_validation_witness :
    surfFix.setValue (3 / 2) =
      (surfFix, some "Value for control must be between 0 and 1") ∧
    (surfFix.setValue (1 / 2)).2 = none :=
  ⟨(value_setter_validation surfFix (3 / 2)).1 (Or.inr (by norm_num)),
   (value_setter_validation surfFix (1 / 2)).2 (by norm_num) (by norm_num)⟩

/-- **C3.**  `resetContext` first installs a freshly constructed
`DeviceContextManager` and then raises the `ContextResetException`
signal, so the pre-reset context is discarded whatever it was; a driver
wrapped with `catchContextResetException` absorbs the signal without
re-raising (returning normally with the post-reset global state); and
`getContext` after the reset observes the freshly constructed
context. -/
theorem resetContext_replaces_then_raises (g : GlobalContext)
    (reason : String) :
    resetContext reason g =
      (some DeviceContextManager.init, .contextReset reason) ∧
    getContext (resetContext reason g).1 =
      .ok DeviceContextManager.init ∧
    ∀ (α : Type) (func : GlobalContext → GlobalContext × PyResult α)
      (g0 g1 : GlobalContext) (r : String),
      func g0 = (g1, .contextReset r) →
      catchContextResetException func g0 = (g1, .ok ()) := by
  refine ⟨rfl, rfl, ?_⟩
  intro α func g0 g1 r h
  unfold catchContextResetException
  rw [h]

/-- Witness for `resetContext_replaces_then_raises`: a driver that calls
`resetContext` is absorbed by the decorator and the next `getContext`
sees the fresh context. -/
theorem resetContext_replaces_then_raises_witness :
    resetContext "device disconnect" none =
      (some DeviceContextManager.init, .contextReset "device disconnect") ∧
    catchContextResetException (resetContext "device disconnect") none =
      (some DeviceContextManager.init, .ok ()) ∧
    getContext (resetContext "device disconnect" none).1 =
      .ok DeviceContextManager.init :=
  ⟨(resetContext_replaces_then_raises none "device disconnect").1,
   (resetContext_replaces_then_raises none "device disconnect").2.2
     Empty (resetContext "device disconnect") none
     (some DeviceContextManager.init) "device disconnect" rfl,
   (resetContext_replaces_then_raises none "device disconnect").2.1⟩

/-- **C4.**  `doTick(thorough := true)` fires all three change callbacks
regardless of dirty-flag state; `doTick(thorough := false)` fires
exactly those whose dirty flag is set; and in either case `doTick`
clears `needs_update` and `got_update` exactly when `got_update` was
set when it ran (otherwise the surface state is unchanged). -/
theorem doTick_callbacks_and_ack (s : ControlSurface) (thorough : Bool) :
    (thorough = true →
      (s.doTick thorough).1 =
        [.onColorChange s.color, .onAnnotationChange s.annot,
         .onValueChange s.value]) ∧
    (thorough = false →
      ((∃ c, ChangeCallback.onColorChange c ∈ (s.doTick thorough).1) ↔
          s.color_changed = true) ∧
      ((∃ a, ChangeCallback.onAnnotationChange a ∈ (s.doTick thorough).1) ↔
          s.annot_changed = true) ∧
      ((∃ v, ChangeCallback.onValueChange v ∈ (s.doTick thorough).1) ↔
          s.value_changed = true)) ∧
    (s.got_update = true →
      (s.doTick thorough).2.needs_update = false ∧
      (s.doTick thorough).2.got_update = false) ∧
    (s.got_update = false → (s.doTick thorough).2 = s) := by
  refine ⟨?_, ?_, ?_, ?_⟩
  · intro h
    subst h
    simp [ControlSurface.doTick]
  · intro h
    subst h
    cases hc : s.color_changed <;> cases ha : s.annot_changed <;>
      cases hv : s.value_changed <;>
      simp [ControlSurface.doTick, hc, ha, hv]
  · intro h
    simp [ControlSurface.doTick, h]
  · intro h
    simp [ControlSurface.doTick, h]

/-- Witness for `doTick_callbacks_and_ack` at a concrete surface: a
thorough tick fires all three callbacks, and a non-thorough tick on a
surface with `got_update` clear leaves the state unchanged. -/
theorem doTick_callbacks_and_ack_witness :
    (surfFix.doTick true).1 =
      [.onColorChange Color.default, .onAnnotationChange "",
       .onValueChange 0] ∧
    (surfFix.doTick false).2 = surfFix :=
  ⟨(doTick_callbacks_and_ack surfFix true).1 rfl,
   (doTick_callbacks_and_ack surfFix false).2.2.2 rfl⟩

/-- On a surface whose pattern matches the event and whose `isPress`
predicate always holds, `match` reports a double press exactly when
`now - lastPressTime` is within the threshold, stamps `lastPressTime`
with `now`, and keeps the pattern and press predicate. -/
theorem matchEvent_press_state (s : ControlSurface) (now dpt : ℚ)
    (e : EventData) (hm : s.pattern.matchEvent e = true)
    (hp : ∀ v, s.isPress v = true) :
    (s.matchEvent now dpt e).1.map ControlEvent.double_press =
      some (decide (now - s.press ≤ dpt)) ∧
    (s.matchEvent now dpt e).2.press = now ∧
    (s.matchEvent now dpt e).2.pattern = s.pattern ∧
    (s.matchEvent now dpt e).2.isPress = s.isPress := by
  unfold ControlSurface.matchEvent
  simp [hm, hp]

/-- **C5.**  With `controls.double_press_time = 0.3` and a surface whose
`isPress` always holds, two matching presses at times `0.0` and `0.2`
report `isDoublePress = true` on the second, while presses at `0.0` and
`0.4` report `false` on the second. -/
theorem double_press_timing :
    ((((surfFix.matchEvent 0 (3 / 10) noteOn60).2).matchEvent (2 / 10)
        (3 / 10) noteOn60).1.map ControlEvent.double_press = some true) ∧
    ((((surfFix.matchEvent 0 (3 / 10) noteOn60).2).matchEvent (4 / 10)
        (3 / 10) noteOn60).1.map ControlEvent.double_press = some false) := by
  obtain ⟨-, hp1, hpat1, hip1⟩ :=
    matchEvent_press_state surfFix 0 (3 / 10) noteOn60 rfl (fun _ => rfl)
  constructor
  · obtain ⟨hd, -, -, -⟩ :=
      matchEvent_press_state ((surfFix.matchEvent 0 (3 / 10) noteOn60).2)
        (2 / 10) (3 / 10) noteOn60 (by rw [hpat1]; rfl) (fun v => by rw [hip1]; rfl)
    rw [hd, hp1]
    simp only [Option.some.injEq, decide_eq_true_eq]
    norm_num
  · obtain ⟨hd, -, -, -⟩ :=
      matchEvent_press_state ((surfFix.matchEvent 0 (3 / 10) noteOn60).2)
        (4 / 10) (3 / 10) noteOn60 (by rw [hpat1]; rfl) (fun v => by rw [hip1]; rfl)
    rw [hd, hp1]
    simp only [Option.some.injEq, decide_eq_false_iff_not]
    norm_num

/-- **C8.**  `ControlSurface.match` mutates the surface exactly when its
pattern matches the event: on a miss it returns `none` with every field
of the surface unchanged, and on a hit it stamps `lastTweakTime` with
the current time, so (whenever the clock has advanced past the stored
tweak stamp) the post-state differs from the pre-state. -/
theorem match_frame_effect (s : ControlSurface) (now dpt : ℚ)
    (e : EventData) :
    (s.pattern.matchEvent e = false → s.matchEvent now dpt e = (none, s)) ∧
    (s.pattern.matchEvent e = true →
      (s.matchEvent now dpt e).2.tweak = now) ∧
    (s.pattern.matchEvent e = true → now ≠ s.tweak →
      (s.matchEvent now dpt e).2 ≠ s) := by
  refine ⟨?_, ?_, ?_⟩
  · intro h
    unfold ControlSurface.matchEvent
    simp [h]
  · intro h
    unfold ControlSurface.matchEvent
    simp only [h, if_true]
    split <;> rfl
  · intro h hne heq
    apply hne
    have ht : (s.matchEvent now dpt e).2.tweak = now := by
      unfold ControlSurface.matchEvent
      simp only [h, if_true]
      split <;> rfl
    rw [heq] at ht
    exact ht.symm

/-- Witness for `match_frame_effect`: a surface whose pattern matches
nothing is untouched by a miss, and a matching event at a fresh time
mutates the surface. -/
theorem match_frame_effect_witness :
    surfMiss.matchEvent 1 (3 / 10) noteOn60 = (none, surfMiss) ∧
    (surfFix.matchEvent 1 (3 / 10) noteOn60).2 ≠ surfFix :=
  ⟨(match_frame_effect surfMiss 1 (3 / 10) noteOn60).1 rfl,
   (match_frame_effect surfFix 1 (3 / 10) noteOn60).2.2 rfl (by decide)⟩

/-- **C9.**  A freshly constructed `ControlSurface` has all three dirty
flags set, so its very first `doTick(thorough := false)` fires all
three change callbacks even though no attribute was ever assigned or
matched. -/
theorem fresh_surface_first_tick (p : IEventPattern) (vs : IValueStrategy)
    (ip : ℚ → Bool) (c : Int × Int) :
    (ControlSurface.init p vs ip c).color_changed = true ∧
    (ControlSurface.init p vs ip c).annot_changed = true ∧
    (ControlSurface.init p vs ip c).value_changed = true ∧
    ((ControlSurface.init p vs ip c).doTick false).1 =
      [.onColorChange Color.default, .onAnnotationChange "",
       .onValueChange 0] :=
  ⟨rfl, rfl, rfl, rfl⟩

/-- **C10.**  `lastPressTime` is initialized to `0.0`, so on a fresh
surface whose `isPress` always holds, the very first matching press at
time `t` already reports `isDoublePress = true` whenever
`t ≤ double_press_time`, with no prior press having occurred. -/
theorem first_press_reports_double (p : IEventPattern) (vs : IValueStrategy)
    (c : Int × Int) (t dpt : ℚ) (e : EventData)
    (hm : p.matchEvent e = true) (ht : t ≤ dpt) :
    ((ControlSurface.init p vs (fun _ => true) c).matchEvent t dpt e).1.map
      ControlEvent.double_press = some true := by
  obtain ⟨hd, -, -, -⟩ :=
    matchEvent_press_state (ControlSurface.init p vs (fun _ => true) c)
      t dpt e hm (fun _ => rfl)
  rw [hd]
  have hz : (ControlSurface.init p vs (fun _ => true) c).press = 0 := rfl
  rw [hz, sub_zero]
  simp only [Option.some.injEq, decide_eq_true_eq]
  exact ht

/-- Witness for `first_press_reports_double`: the first press at time
`0.25` with threshold `0.3` on a fresh always-press surface reports a
double press. -/
theorem first_press_reports_double_witness :
    ((ControlSurface.init alwaysPattern data2Strategy (fun _ => true)
        (0, 0)).matchEvent (1 / 4) (3 / 10) noteOn60).1.map
      ControlEvent.double_press = some true :=
  first_press_reports_double alwaysPattern data2Strategy (0, 0) (1 / 4)
    (3 / 10) noteOn60 rfl (by norm_num)

/-- The coarse note pattern built by `NoteMatcher.__init__` matches
exactly the events whose status high nibble is 8 or 9 (note off / note
on); the two data bytes are wildcards. -/
theorem note_pattern_matches_iff (mkNote : Nat → ControlSurface)
    (e : EventData) :
    ((NoteMatcher.init mkNote).note_pattern.matchEvent e = true) ↔
      (e.status / 16 = 8 ∨ e.status / 16 = 9) := by
  simp [NoteMatcher.init, BasicPattern, fromNibbles, FieldPattern.matchByte,
    List.contains]

/-- **C6.**  `NoteMatcher.matchEvent` invokes `match` on at most one
pooled surface — exactly the pool member at index `data1` — and only
when the coarse note pattern (status high nibble 8 or 9) matches the
event; when the coarse pattern does not match it returns `None` with no
pooled surface invoked.  The trace component lists the pool indices
whose `match` was invoked, and every pool slot other than `data1` is
left untouched. -/
theorem noteMatcher_dispatch (mkNote : Nat → ControlSurface)
    (now dpt : ℚ) (e : EventData) :
    (¬(e.status / 16 = 8 ∨ e.status / 16 = 9) →
      (NoteMatcher.init mkNote).matchEvent now dpt e =
        .ok (none, NoteMatcher.init mkNote, [])) ∧
    ((e.status / 16 = 8 ∨ e.status / 16 = 9) → e.data1 < 128 →
      (NoteMatcher.init mkNote).matchEvent now dpt e =
        .ok (((mkNote e.data1).matchEvent now dpt e).1,
          { notes := (NoteMatcher.init mkNote).notes.set e.data1
              ((mkNote e.data1).matchEvent now dpt e).2,
            note_pattern := (NoteMatcher.init mkNote).note_pattern },
          [e.data1]) ∧
      ∀ i, i ≠ e.data1 →
        ((NoteMatcher.init mkNote).notes.set e.data1
            ((mkNote e.data1).matchEvent now dpt e).2)[i]? =
          (NoteMatcher.init mkNote).notes[i]?) := by
  constructor
  · intro h
    have hb : (NoteMatcher.init mkNote).note_pattern.matchEvent e = false := by
      rw [← Bool.not_eq_true, note_pattern_matches_iff]
      exact h
    unfold NoteMatcher.matchEvent
    simp [isEventStandard, hb]
  · intro h hlt
    have hb : (NoteMatcher.init mkNote).note_pattern.matchEvent e = true :=
      (note_pattern_matches_iff mkNote e).mpr h
    have hg : (NoteMatcher.init mkNote).notes[e.data1]? =
        some (mkNote e.data1) := by
      show ((List.range 128).map mkNote)[e.data1]? = some (mkNote e.data1)
      rw [List.getElem?_map, List.getElem?_range hlt]
      rfl
    constructor
    · unfold NoteMatcher.matchEvent
      simp [isEventStandard, hb, hg]
    · intro i hi
      exact List.getElem?_set_ne (fun hc => hi hc.symm)

/-- Witness for `noteMatcher_dispatch`: a clock event (status `0x00`)
invokes no pooled surface, while a note-on with `data1 = 60` routes to
pool index 60 exactly. -/
theorem noteMatcher_dispatch_witness :
    (NoteMatcher.init (fun _ => surfFix)).matchEvent 0 (3 / 10) ⟨0, 0, 0⟩ =
      .ok (none, NoteMatcher.init (fun _ => surfFix), []) ∧
    (NoteMatcher.init (fun _ => surfFix)).matchEvent 0 (3 / 10) noteOn60 =
      .ok ((surfFix.matchEvent 0 (3 / 10) noteOn60).1,
        { notes := (NoteMatcher.init (fun _ => surfFix)).notes.set 60
            (surfFix.matchEvent 0 (3 / 10) noteOn60).2,
          note_pattern := (NoteMatcher.init (fun _ => surfFix)).note_pattern },
        [60]) :=
  ⟨(noteMatcher_dispatch (fun _ => surfFix) 0 (3 / 10) ⟨0, 0, 0⟩).1
      (by decide),
   ((noteMatcher_dispatch (fun _ => surfFix) 0 (3 / 10) noteOn60).2
      (by decide) (by decide)).1⟩
